import Mathlib

/-!
Verification of the CPH50 charge-control worker core (`src/index.ts`).

Shallow embedding of the Cloudflare Worker in `src/index.ts`:

* network I/O is modelled by an oracle (`World`) giving the outcome of the
  k-th attempt of each vendor call (a received HTTP response, or a thrown
  transport error), the JSON-parse result of a response body, the outcome of
  the MailChannels alert call, and the wall-clock hour that
  `Intl.DateTimeFormat` reports for a timezone;
* promise rejection / thrown errors are modelled with `Except String`;
* JavaScript string/number truthiness (`x || y`, `!x`) is modelled explicitly
  (`""` and `0` are falsy);
* effects of one invocation (attempt counts per endpoint, alert requests made,
  backoff waits in milliseconds) are collected in a trace record.
-/

set_option autoImplicit false
set_option linter.unusedVariables false
set_option linter.unreachableTactic false
set_option linter.unusedTactic false

namespace CPH50

/-- An HTTP response as the worker observes it: numeric status and body text. -/
structure Response where
  status : Nat
  body : String
  deriving DecidableEq, Repr

/-- `Response.ok` of the Fetch API: status in the range [200, 300). -/
def Response.isOk (r : Response) : Bool :=
  decide (200 ≤ r.status ∧ r.status < 300)

/-- Outcome of one attempt of a network call: either the promise rejects with a
transport-level error (message text), or an HTTP response is received. -/
inductive Outcome where
  | err (e : String)
  | resp (r : Response)
  deriving DecidableEq, Repr

/-- `true` when the attempt counts as failed for the retry loop: a transport
error, or a received response with non-success status. -/
def attemptFails : Outcome → Bool
  | Outcome.err _ => true
  | Outcome.resp r => !r.isOk

/-- `const MAX_ATTEMPTS = 3`. -/
def MAX_ATTEMPTS : Nat := 3

/-- `const BASE_DELAY_MS = 2000`. -/
def BASE_DELAY_MS : Nat := 2000

/-- Result of one run of `fetchWithRetry`: the value the promise settles with
(`Except.error` = thrown), the number of attempts performed, and the list of
backoff waits performed, in milliseconds, in chronological order. -/
structure RetryRun where
  result : Except String Response
  attempts : Nat
  waits : List Nat
  deriving Repr

/-- The error text the loop stores in `lastError` for a failed attempt:
`err` stores the thrown error, a non-ok response stores `HTTP <status>`. -/
def outcomeErrText : Outcome → String
  | Outcome.err e => e
  | Outcome.resp r => "HTTP " ++ toString r.status

/-- Exit code of the `while` loop in `fetchWithRetry` (after the loop): if some
response was received it is returned even if non-ok, otherwise the most recent
error is thrown. -/
def finishRetry (lastResponse : Option Response) (lastError : Option String)
    (attempt : Nat) (waits : List Nat) : RetryRun :=
  match lastResponse with
  | some r => ⟨Except.ok r, attempt, waits⟩
  | none => ⟨Except.error (lastError.getD "undefined"), attempt, waits⟩

/-- The `while (attempt < MAX_ATTEMPTS)` loop of `fetchWithRetry`, by recursion
on the number of remaining iterations (`remaining = MAX_ATTEMPTS - attempt`).
`f k` is the outcome of the k-th (0-based) evaluation of `requestFn`.  An ok
response returns immediately; otherwise `lastResponse`/`lastError` are updated,
the counter is incremented, and unless the attempts are exhausted a backoff of
`BASE_DELAY_MS * 2 ^ (attempt - 1)` ms (for the incremented `attempt`) is
performed before the next iteration. -/
def retryLoop (f : Nat → Outcome) :
    Nat → Nat → Option Response → Option String → List Nat → RetryRun
  | 0, attempt, lastResponse, lastError, waits =>
      finishRetry lastResponse lastError attempt waits
  | remaining + 1, attempt, lastResponse, lastError, waits =>
      match f attempt with
      | Outcome.resp r =>
          if r.isOk then ⟨Except.ok r, attempt + 1, waits⟩
          else if remaining = 0 then
            finishRetry (some r) (some ("HTTP " ++ toString r.status)) (attempt + 1) waits
          else
            retryLoop f remaining (attempt + 1) (some r)
              (some ("HTTP " ++ toString r.status))
              (waits ++ [BASE_DELAY_MS * 2 ^ attempt])
      | Outcome.err e =>
          if remaining = 0 then
            finishRetry lastResponse (some e) (attempt + 1) waits
          else
            retryLoop f remaining (attempt + 1) lastResponse (some e)
              (waits ++ [BASE_DELAY_MS * 2 ^ attempt])

/-- `fetchWithRetry(requestFn)`: run the retry loop starting at attempt 0 with
no response and no error recorded. -/
def fetchWithRetry (f : Nat → Outcome) : RetryRun :=
  retryLoop f MAX_ATTEMPTS 0 none none []

example :
    (fetchWithRetry (fun _ => Outcome.err "boom")).attempts = 3 := by decide

example :
    (fetchWithRetry (fun _ => Outcome.err "boom")).waits = [2000, 4000] := by decide

example :
    (fetchWithRetry (fun _ => Outcome.resp ⟨200, "hi"⟩)).attempts = 1 := by decide

example :
    (fetchWithRetry (fun _ => Outcome.resp ⟨500, "no"⟩)).result
      = Except.ok ⟨500, "no"⟩ := rfl

example :
    (fetchWithRetry (fun k => if k = 0 then Outcome.resp ⟨500, "no"⟩ else Outcome.err "x")).result
      = Except.ok ⟨500, "no"⟩ := rfl

/-- The worker's environment bindings (`interface Env`).  Values that a
misconfigured deployment leaves unset appear as the empty string, which is
exactly what the JavaScript truthiness checks in the source test for. -/
structure Env where
  CP_USERNAME : String
  CP_PASSWORD : String
  CP_STATION_ID : String
  ALERT_EMAIL : String
  TZ_REGION : String
  deriving DecidableEq, Repr

/-- `interface AuthResponse`, field `user?: { id?: number; user_id?: number }`. -/
structure AuthUser where
  id : Option Int
  user_id : Option Int
  deriving DecidableEq, Repr

/-- `interface AuthResponse`, field `sessionStorage?: { coulomb_sess?: string }`. -/
structure SessionStorage where
  coulomb_sess : Option String
  deriving DecidableEq, Repr

/-- `interface AuthResponse`.  The extra `error` field is read (untyped) by the
`/setup` route (`authJson.error`); a missing field is `none`. -/
structure AuthResponse where
  userid : Option String
  user : Option AuthUser
  sessionStorage : Option SessionStorage
  access_token : Option String
  auth_token : Option String
  error : Option String
  deriving DecidableEq, Repr

/-- `interface ChargerListResponse`, one element of `data`. -/
structure Station where
  station_id : Option String
  station_name : Option String
  deriving DecidableEq, Repr

/-- `interface ChargerListResponse`. -/
structure ChargerListResponse where
  data : Option (List Station)
  deriving DecidableEq, Repr

/-- JavaScript `a || b` where `a` is a possibly-undefined string: the empty
string and `undefined` are falsy. -/
def jsStrOr (a : Option String) (b : String) : String :=
  match a with
  | some s => if s = "" then b else s
  | none => b

/-- JavaScript truthiness of a possibly-undefined string (`!!x`,
`if (x)`): `undefined` and `""` are falsy. -/
def jsTruthyStr (o : Option String) : Bool :=
  match o with
  | some s => !(s = "")
  | none => false

/-- `authJson.user?.id || authJson.user?.user_id` restricted to one user
object: a JavaScript number is falsy exactly when it is 0 (NaN does not arise
for parsed integer ids). -/
def userIdNum (u : AuthUser) : Option Int :=
  match u.id with
  | some n =>
      if n = 0 then
        match u.user_id with
        | some m => if m = 0 then none else some m
        | none => none
      else some n
  | none =>
      match u.user_id with
      | some m => if m = 0 then none else some m
      | none => none

/-- `authJson.userid || String(authJson.user?.id || authJson.user?.user_id || "")`. -/
def extractUserId (a : AuthResponse) : String :=
  jsStrOr a.userid
    (match a.user with
     | some u =>
         match userIdNum u with
         | some n => toString n
         | none => ""
     | none => "")

/-- `authJson.sessionStorage?.coulomb_sess || authJson.access_token ||
authJson.auth_token || ""`. -/
def extractSessionToken (a : AuthResponse) : String :=
  jsStrOr (a.sessionStorage.bind SessionStorage.coulomb_sess)
    (jsStrOr a.access_token (jsStrOr a.auth_token ""))

/-- The character escapes `JSON.stringify` applies inside a string value. -/
def jsonEscapeChar (c : Char) : String :=
  if c = '\"' then "\\\""
  else if c = '\\' then "\\\\"
  else if c = '\n' then "\\n"
  else if c = '\r' then "\\r"
  else if c = '\t' then "\\t"
  else String.singleton c

/-- `JSON.stringify` escaping of a string value (common escapes). -/
def jsonEscape (s : String) : String :=
  String.join (s.data.map jsonEscapeChar)

/-- `JSON.stringify` of a boolean. -/
def jsonBool (b : Bool) : String :=
  if b then "true" else "false"

/-- `JSON.stringify({ userid: authJson.userid, hasCoulomb:
!!authJson.sessionStorage?.coulomb_sess })` — the detail appended to the
"Auth missing user_id or session token" message.  `JSON.stringify` omits a
key whose value is `undefined`. -/
def authMissingDetail (a : AuthResponse) : String :=
  (match a.userid with
   | some u => "\x7b\"userid\":\"" ++ jsonEscape u ++ "\",\"hasCoulomb\":"
   | none => "\x7b\"hasCoulomb\":")
  ++ jsonBool (jsTruthyStr (a.sessionStorage.bind SessionStorage.coulomb_sess)) ++ "\x7d"

/-- The effect of one call to `sendAlert`: the mail request it issues
(recipient, subject, body) and the `console.error` lines it logs. -/
structure AlertEffect where
  recipient : String
  subject : String
  body : String
  log : List String
  deriving DecidableEq, Repr

/-- `sendAlert(env, subject, body)` given the outcome `m` of the single
MailChannels `fetch`.  The whole body is wrapped in `try/catch`, so every
outcome — success, non-ok status, or thrown transport error — returns
normally; a delivery failure is only logged. -/
def sendAlert (env : Env) (subject body : String) (m : Outcome) : AlertEffect :=
  match m with
  | Outcome.resp r =>
      ⟨env.ALERT_EMAIL, subject, body,
        if r.isOk then [] else ["MailChannels alert failed " ++ toString r.status]⟩
  | Outcome.err e =>
      ⟨env.ALERT_EMAIL, subject, body, ["MailChannels alert error " ++ e]⟩

/-- The oracle for everything the worker observes from its environment:
per-attempt outcomes of the three vendor endpoints, JSON parsing of response
bodies (`res.json()` may throw, hence `Except`), the outcome of the
MailChannels call, and the civil wall-clock hour `Intl.DateTimeFormat`
reports for a timezone identifier (`getLocalHour`). -/
structure World where
  authOutcome : Nat → Outcome
  authParse : Response → Except String AuthResponse
  startOutcome : Nat → Outcome
  chargerOutcome : Nat → Outcome
  chargerParse : Response → Except String ChargerListResponse
  mailOutcome : Outcome
  localHour : String → Nat

/-- The value `performChargeFlow` resolves with: `{ ok: boolean; error?: string }`. -/
structure ChargeResult where
  ok : Bool
  error : Option String
  deriving DecidableEq, Repr

/-- Observable effects of one invocation: attempts made against each vendor
endpoint, the alert calls performed, and all backoff waits (ms). -/
structure FlowTrace where
  authAttempts : Nat
  startAttempts : Nat
  chargerAttempts : Nat
  alerts : List AlertEffect
  waits : List Nat
  deriving DecidableEq, Repr

/-- The trace of an invocation that performed no network call and no alert. -/
def emptyTrace : FlowTrace := ⟨0, 0, 0, [], []⟩

/-- Subject line used for every charge-failure alert. -/
def urgentSubject : String := "⚠️ URGENT: EV Charging Failed"

/-- `if (sendAlerts) await sendAlert(env, "⚠️ URGENT: EV Charging Failed", msg)`. -/
def alertsIf (env : Env) (sendAlerts : Bool) (msg : String) (m : Outcome) :
    List AlertEffect :=
  if sendAlerts then [sendAlert env urgentSubject msg m] else []

/-- `performChargeFlow(env, sendAlerts)`: authenticate (with retry), extract
`userId` and `sessionToken` (JS `||` chains over the legacy field aliases),
fail fast if either is empty, then trigger `start_session` (with retry).
Any error thrown inside either `try` block (exhausted transport retries or a
JSON parse error) is caught and converted into `{ok:false, error}`; the
session-start response is also a failure when its status is not ok.  Returns
the result together with the invocation's effect trace. -/
def performChargeFlow (env : Env) (sendAlerts : Bool) (w : World) :
    ChargeResult × FlowTrace :=
  let authRun := fetchWithRetry w.authOutcome
  match authRun.result with
  | Except.error e =>
      let msg := "Auth error: " ++ e
      (⟨false, some msg⟩,
       ⟨authRun.attempts, 0, 0, alertsIf env sendAlerts msg w.mailOutcome, authRun.waits⟩)
  | Except.ok authRes =>
      match w.authParse authRes with
      | Except.error e =>
          let msg := "Auth error: " ++ e
          (⟨false, some msg⟩,
           ⟨authRun.attempts, 0, 0, alertsIf env sendAlerts msg w.mailOutcome, authRun.waits⟩)
      | Except.ok authJson =>
          let userId := extractUserId authJson
          let sessionToken := extractSessionToken authJson
          if userId = "" ∨ sessionToken = "" then
            let msg := "Auth missing user_id or session token. Got: " ++ authMissingDetail authJson
            (⟨false, some msg⟩,
             ⟨authRun.attempts, 0, 0, alertsIf env sendAlerts msg w.mailOutcome, authRun.waits⟩)
          else
            let startRun := fetchWithRetry w.startOutcome
            match startRun.result with
            | Except.error e =>
                let msg := "Start session error: " ++ e
                (⟨false, some msg⟩,
                 ⟨authRun.attempts, startRun.attempts, 0,
                  alertsIf env sendAlerts msg w.mailOutcome,
                  authRun.waits ++ startRun.waits⟩)
            | Except.ok startRes =>
                if !startRes.isOk then
                  let msg := "Start session failed: " ++ toString startRes.status
                    ++ "\n" ++ startRes.body
                  (⟨false, some msg⟩,
                   ⟨authRun.attempts, startRun.attempts, 0,
                    alertsIf env sendAlerts msg w.mailOutcome,
                    authRun.waits ++ startRun.waits⟩)
                else
                  (⟨true, none⟩,
                   ⟨authRun.attempts, startRun.attempts, 0, [],
                    authRun.waits ++ startRun.waits⟩)

/-- An environment value for concrete evaluations. -/
def exEnv : Env :=
  ⟨"alice@example.com", "hunter2", "STN-1", "owner@example.com", "America/Los_Angeles"⟩

/-- An auth response carrying a user id and a session token. -/
def exGoodAuth : AuthResponse :=
  ⟨some "42", none, some ⟨some "tok-sess"⟩, none, none, none⟩

/-- A world where authentication succeeds and `start_session` returns 200. -/
def exGoodWorld : World :=
  ⟨fun _ => Outcome.resp ⟨200, "auth-body"⟩,
   fun _ => Except.ok exGoodAuth,
   fun _ => Outcome.resp ⟨200, "started"⟩,
   fun _ => Outcome.resp ⟨200, "chargers"⟩,
   fun _ => Except.ok ⟨some [⟨some "STN-1", some "Home"⟩]⟩,
   Outcome.resp ⟨202, "sent"⟩,
   fun _ => 6⟩

example : (performChargeFlow exEnv true exGoodWorld).1 = ⟨true, none⟩ := rfl

example : (performChargeFlow exEnv true exGoodWorld).2.alerts = [] := rfl

/-- A world whose auth response parses but contains no token field at all. -/
def exNoTokenWorld : World :=
  { exGoodWorld with authParse := fun _ => Except.ok ⟨some "42", none, none, none, none, none⟩ }

example : (performChargeFlow exEnv true exNoTokenWorld).1.ok = false := rfl

example : (performChargeFlow exEnv true exNoTokenWorld).2.startAttempts = 0 := rfl

example :
    (performChargeFlow exEnv true exNoTokenWorld).2.alerts.length = 1 := rfl

example :
    (performChargeFlow exEnv true exNoTokenWorld).1.error
      = some "Auth missing user_id or session token. Got: \x7b\"userid\":\"42\",\"hasCoulomb\":false\x7d" := rfl

/-- A JSON value, used to model the objects the routes serialize with
`JSON.stringify` into their response bodies. -/
inductive Json where
  | str (s : String)
  | num (n : Int)
  | bool (b : Bool)
  | null
  | arr (xs : List Json)
  | obj (fields : List (String × Json))
  deriving Repr

/-- `env.TZ_REGION || "America/Los_Angeles"`. -/
def effectiveTz (env : Env) : String :=
  if env.TZ_REGION = "" then "America/Los_Angeles" else env.TZ_REGION

/-- What one invocation of the `scheduled` handler did: whether the gate let
the charge flow run, the flow's result when it ran (the runtime discards it;
it is kept here as an observation), and the effect trace. -/
structure ScheduledRun where
  ran : Bool
  result : Option ChargeResult
  trace : FlowTrace

/-- The `scheduled` entry point: compute the civil wall-clock hour for
`env.TZ_REGION || "America/Los_Angeles"` (via the `Intl.DateTimeFormat`
oracle `w.localHour`, which is `getLocalHour`) and return immediately unless
it equals 6; otherwise run `performChargeFlow(env, true)`. -/
def scheduledHandler (env : Env) (w : World) : ScheduledRun :=
  let hour := w.localHour (effectiveTz env)
  if hour ≠ 6 then ⟨false, none, emptyTrace⟩
  else
    let run := performChargeFlow env true w
    ⟨true, some run.1, run.2⟩

/-- The parts of an incoming `Request` the `fetch` handler inspects:
`url.pathname` and `request.method`. -/
structure HttpRequest where
  path : String
  method : String
  deriving DecidableEq, Repr

/-- An outgoing `Response`: HTTP status and the JSON value whose
serialization is the body (every route sets `content-type: application/json`). -/
structure HttpResponse where
  status : Nat
  body : Json

/-- `JSON.stringify({ok, error?})`: a key with value `undefined` is omitted. -/
def chargeResultJson (r : ChargeResult) : Json :=
  Json.obj ([("ok", Json.bool r.ok)] ++
    (match r.error with
     | some e => [("error", Json.str e)]
     | none => []))

/-- One `"key":"value"` member for an optional string field; `JSON.stringify`
omits the key when the value is `undefined`. -/
def renderOptStrField (k : String) (o : Option String) : List String :=
  match o with
  | some s => ["\"" ++ k ++ "\":\"" ++ jsonEscape s ++ "\""]
  | none => []

/-- One `"key":n` member for an optional numeric field. -/
def renderOptNumField (k : String) (o : Option Int) : List String :=
  match o with
  | some n => ["\"" ++ k ++ "\":" ++ toString n]
  | none => []

/-- `JSON.stringify(authJson)` over the typed `AuthResponse` fields, in
interface declaration order (the embedding does not track unknown extra keys
of the raw vendor JSON). -/
def renderAuthResponse (a : AuthResponse) : String :=
  "\x7b" ++ String.intercalate ","
    (renderOptStrField "userid" a.userid ++
     (match a.user with
      | some u =>
          ["\"user\":\x7b" ++ String.intercalate ","
            (renderOptNumField "id" u.id ++ renderOptNumField "user_id" u.user_id)
           ++ "\x7d"]
      | none => []) ++
     (match a.sessionStorage with
      | some ss =>
          ["\"sessionStorage\":\x7b" ++ String.intercalate ","
            (renderOptStrField "coulomb_sess" ss.coulomb_sess) ++ "\x7d"]
      | none => []) ++
     renderOptStrField "access_token" a.access_token ++
     renderOptStrField "auth_token" a.auth_token ++
     renderOptStrField "error" a.error)
  ++ "\x7d"

/-- The `AuthResponse` as a JSON value (the `/setup` 401 body embeds it). -/
def authResponseJson (a : AuthResponse) : Json :=
  Json.obj
    ((match a.userid with | some s => [("userid", Json.str s)] | none => []) ++
     (match a.user with
      | some u =>
          [("user", Json.obj
            ((match u.id with | some n => [("id", Json.num n)] | none => []) ++
             (match u.user_id with | some n => [("user_id", Json.num n)] | none => [])))]
      | none => []) ++
     (match a.sessionStorage with
      | some ss =>
          [("sessionStorage", Json.obj
            (match ss.coulomb_sess with
             | some s => [("coulomb_sess", Json.str s)]
             | none => []))]
      | none => []) ++
     (match a.access_token with | some s => [("access_token", Json.str s)] | none => []) ++
     (match a.auth_token with | some s => [("auth_token", Json.str s)] | none => []) ++
     (match a.error with | some s => [("error", Json.str s)] | none => []))

/-- One element of the `/setup` charger list:
`{ station_id: c.station_id, station_name: c.station_name }`. -/
def stationJson (s : Station) : Json :=
  Json.obj
    ((match s.station_id with | some v => [("station_id", Json.str v)] | none => []) ++
     (match s.station_name with | some v => [("station_name", Json.str v)] | none => []))

/-- The parsed charger-list response as a JSON value (embedded in the
`/setup` 404 body). -/
def chargerListJson (c : ChargerListResponse) : Json :=
  Json.obj
    (match c.data with
     | some l => [("data", Json.arr (l.map stationJson))]
     | none => [])

/-- The `/setup` route (station discovery): authenticate with retry, surface
auth transport failure (500 with diagnostic booleans/lengths), pass a non-ok
auth status through, extract `userId`/`sessionToken`, return 401 when the
token is missing or the auth JSON carries an `error` field, 500 when the user
id is missing, then fetch the home-charger list with retry, 404 with a
distinct "No home chargers found" error when the list is empty, otherwise 200
with the (id, name) pairs.  Errors thrown by JSON parsing are caught by the
route's outer `try` and become 500 `{error: String(err)}`. -/
def setupRoute (env : Env) (w : World) : HttpResponse × FlowTrace :=
  let authRun := fetchWithRetry w.authOutcome
  match authRun.result with
  | Except.error e =>
      (⟨500, Json.obj
          [("error", Json.str ("Auth fetch failed: " ++ e)),
           ("usernameSet", Json.bool (!(env.CP_USERNAME = ""))),
           ("passwordSet", Json.bool (!(env.CP_PASSWORD = ""))),
           ("usernameLength", Json.num env.CP_USERNAME.length),
           ("passwordLength", Json.num env.CP_PASSWORD.length)]⟩,
       ⟨authRun.attempts, 0, 0, [], authRun.waits⟩)
  | Except.ok authRes =>
      if !authRes.isOk then
        (⟨authRes.status, Json.obj
            [("error", Json.str ("Auth returned " ++ toString authRes.status)),
             ("status", Json.num authRes.status),
             ("responseBody", Json.str (authRes.body.take 500))]⟩,
         ⟨authRun.attempts, 0, 0, [], authRun.waits⟩)
      else
        match w.authParse authRes with
        | Except.error e =>
            (⟨500, Json.obj [("error", Json.str e)]⟩,
             ⟨authRun.attempts, 0, 0, [], authRun.waits⟩)
        | Except.ok authJson =>
            let userId := extractUserId authJson
            let sessionToken := extractSessionToken authJson
            if sessionToken = "" ∨ jsTruthyStr authJson.error then
              (⟨401, Json.obj
                  [("error", Json.str "Auth failed or missing session token"),
                   ("authResponse", authResponseJson authJson)]⟩,
               ⟨authRun.attempts, 0, 0, [], authRun.waits⟩)
            else if userId = "" then
              (⟨500, Json.obj
                  [("error", Json.str ("Could not find user_id in login response. Got: "
                      ++ renderAuthResponse authJson))]⟩,
               ⟨authRun.attempts, 0, 0, [], authRun.waits⟩)
            else
              let chargerRun := fetchWithRetry w.chargerOutcome
              match chargerRun.result with
              | Except.error e =>
                  (⟨500, Json.obj [("error", Json.str ("Charger fetch failed: " ++ e))]⟩,
                   ⟨authRun.attempts, 0, chargerRun.attempts, [],
                    authRun.waits ++ chargerRun.waits⟩)
              | Except.ok chargerRes =>
                  match w.chargerParse chargerRes with
                  | Except.error e =>
                      (⟨500, Json.obj [("error", Json.str e)]⟩,
                       ⟨authRun.attempts, 0, chargerRun.attempts, [],
                        authRun.waits ++ chargerRun.waits⟩)
                  | Except.ok chargerJson =>
                      let chargers := chargerJson.data.getD []
                      if chargers.length = 0 then
                        (⟨404, Json.obj
                            [("error", Json.str "No home chargers found"),
                             ("response", chargerListJson chargerJson)]⟩,
                         ⟨authRun.attempts, 0, chargerRun.attempts, [],
                          authRun.waits ++ chargerRun.waits⟩)
                      else
                        (⟨200, Json.obj [("chargers", Json.arr (chargers.map stationJson))]⟩,
                         ⟨authRun.attempts, 0, chargerRun.attempts, [],
                          authRun.waits ++ chargerRun.waits⟩)

/-- The `fetch` entry point: `POST /charge` rejects with 400 when
`CP_STATION_ID` is unset/empty, otherwise runs `performChargeFlow(env, false)`
and answers 200/500 according to `result.ok` with the result serialized as
the body; `POST /setup` runs station discovery; everything else is 404. -/
def fetchHandler (req : HttpRequest) (env : Env) (w : World) :
    HttpResponse × FlowTrace :=
  if req.path = "/charge" ∧ req.method = "POST" then
    if env.CP_STATION_ID = "" then
      (⟨400, Json.obj [("error", Json.str "CP_STATION_ID not set")]⟩, emptyTrace)
    else
      let run := performChargeFlow env false w
      (⟨if run.1.ok then 200 else 500, chargeResultJson run.1⟩, run.2)
  else if req.path = "/setup" ∧ req.method = "POST" then
    setupRoute env w
  else
    (⟨404, Json.obj [("error", Json.str "Not found")]⟩, emptyTrace)

/-- The request the on-demand trigger route answers. -/
def chargeReq : HttpRequest := ⟨"/charge", "POST"⟩

/-- The request the discovery route answers. -/
def setupReq : HttpRequest := ⟨"/setup", "POST"⟩

example : (fetchHandler chargeReq exEnv exGoodWorld).1.status = 200 := rfl

example : (scheduledHandler exEnv exGoodWorld).ran = true := rfl

example :
    (scheduledHandler exEnv { exGoodWorld with localHour := fun _ => 13 }).ran = false := rfl

/-- A world whose charger list parses to zero stations. -/
def exEmptyChargersWorld : World :=
  { exGoodWorld with chargerParse := fun _ => Except.ok ⟨some []⟩ }

example : (fetchHandler setupReq exEnv exEmptyChargersWorld).1.status = 404 := rfl

example : (fetchHandler setupReq exEnv exGoodWorld).1.status = 200 := rfl

/-- C1: if every one of the 3 attempts of a single network call fails
(transport error or non-success status), `fetchWithRetry` makes exactly 3
attempts and performs exactly 2 backoff waits — 2000 ms (2 s) before the 2nd
attempt and 4000 ms (4 s) before the 3rd, in that order — and no wait after
the final attempt. -/
theorem fetchWithRetry_allFail_attempts_and_waits (f : Nat → Outcome)
    (h : ∀ k, k < MAX_ATTEMPTS → attemptFails (f k) = true) :
    (fetchWithRetry f).attempts = 3 ∧ (fetchWithRetry f).waits = [2000, 4000] := by
  have h0 := h 0 (by decide)
  have h1 := h 1 (by decide)
  have h2 := h 2 (by decide)
  unfold fetchWithRetry
  rcases hf0 : f 0 with e0 | r0 <;> rcases hf1 : f 1 with e1 | r1 <;>
    rcases hf2 : f 2 with e2 | r2 <;>
    simp_all [retryLoop, finishRetry, attemptFails, MAX_ATTEMPTS, BASE_DELAY_MS]

/-- Witness for C1 at a run whose every attempt is a transport error. -/
theorem fetchWithRetry_allFail_attempts_and_waits_witness :
    (fetchWithRetry (fun _ => Outcome.err "boom")).attempts = 3 ∧
      (fetchWithRetry (fun _ => Outcome.err "boom")).waits = [2000, 4000] :=
  fetchWithRetry_allFail_attempts_and_waits (fun _ => Outcome.err "boom")
    (by intro k hk; rfl)

/-- The most recent HTTP response among the first `n` attempt outcomes, if
any attempt produced a response at all (`lastResponse` of the loop, for a run
in which no response was ok). -/
def lastRespUpTo (f : Nat → Outcome) : Nat → Option Response
  | 0 => none
  | n + 1 =>
      match f n with
      | Outcome.resp r => some r
      | Outcome.err _ => lastRespUpTo f n

/-- C4: when every attempt fails, `fetchWithRetry` settles with the most
recent received response if any attempt received one (even non-ok), and
otherwise throws the most recent error — the one recorded for the last
attempt. -/
theorem fetchWithRetry_allFail_returns_last (f : Nat → Outcome)
    (h : ∀ k, k < MAX_ATTEMPTS → attemptFails (f k) = true) :
    (fetchWithRetry f).result =
      (match lastRespUpTo f MAX_ATTEMPTS with
       | some r => Except.ok r
       | none => Except.error (outcomeErrText (f (MAX_ATTEMPTS - 1)))) := by
  have h0 := h 0 (by decide)
  have h1 := h 1 (by decide)
  have h2 := h 2 (by decide)
  unfold fetchWithRetry
  rcases hf0 : f 0 with e0 | r0 <;> rcases hf1 : f 1 with e1 | r1 <;>
    rcases hf2 : f 2 with e2 | r2 <;>
    simp_all [retryLoop, finishRetry, attemptFails, outcomeErrText, lastRespUpTo,
      MAX_ATTEMPTS, BASE_DELAY_MS]

/-- A failing attempt sequence: transport error, then a 503 response, then a
transport error again. -/
def exMixedFail : Nat → Outcome :=
  fun k => if k = 1 then Outcome.resp ⟨503, "unavailable"⟩ else Outcome.err ("down " ++ toString k)

/-- Witness for C4: with outcomes error, 503-response, error, the 503
response (the most recent one received) is returned. -/
theorem fetchWithRetry_allFail_returns_last_witness :
    (fetchWithRetry exMixedFail).result =
      (match lastRespUpTo exMixedFail MAX_ATTEMPTS with
       | some r => Except.ok r
       | none => Except.error (outcomeErrText (exMixedFail (MAX_ATTEMPTS - 1)))) :=
  fetchWithRetry_allFail_returns_last exMixedFail
    (by intro k hk
        have hk3 : k < 3 := hk
        interval_cases k <;> rfl)

/-- A thrown (rejected) `fetchWithRetry` error is the text of a transport
error of one of the attempts — in fact a rejection happens only when no
response was ever received. -/
theorem fetchWithRetry_error_source (f : Nat → Outcome) (e : String)
    (h : (fetchWithRetry f).result = Except.error e) :
    ∃ k, k < MAX_ATTEMPTS ∧ f k = Outcome.err e := by
  unfold fetchWithRetry at h
  rcases hf0 : f 0 with e0 | r0 <;> rcases hf1 : f 1 with e1 | r1 <;>
    rcases hf2 : f 2 with e2 | r2 <;>
    simp_all [retryLoop, finishRetry, MAX_ATTEMPTS] <;>
    try (split_ifs at h <;> simp_all)
  exact ⟨2, by decide, hf2⟩

/-- A response with which `fetchWithRetry` settles successfully is the
response received by one of the attempts. -/
theorem fetchWithRetry_ok_source (f : Nat → Outcome) (r : Response)
    (h : (fetchWithRetry f).result = Except.ok r) :
    ∃ k, k < MAX_ATTEMPTS ∧ f k = Outcome.resp r := by
  unfold fetchWithRetry at h
  rcases hf0 : f 0 with e0 | r0 <;> rcases hf1 : f 1 with e1 | r1 <;>
    rcases hf2 : f 2 with e2 | r2 <;>
    simp_all [retryLoop, finishRetry, MAX_ATTEMPTS] <;>
    try (split_ifs at h <;> simp_all)
  all_goals first
    | exact ⟨0, by decide, hf0⟩
    | exact ⟨1, by decide, hf1⟩
    | exact ⟨2, by decide, hf2⟩

/-- C5: when the auth call yields a response whose parsed JSON gives an empty
extracted user id or an empty session token, the flow returns `{ok:false}`
and the `start_session` endpoint is never attempted (0 attempts). -/
theorem chargeFlow_emptyAuthFields_failFast (env : Env) (sendAlerts : Bool) (w : World)
    (ar : Response) (a : AuthResponse)
    (hfetch : (fetchWithRetry w.authOutcome).result = Except.ok ar)
    (hparse : w.authParse ar = Except.ok a)
    (hempty : extractUserId a = "" ∨ extractSessionToken a = "") :
    (performChargeFlow env sendAlerts w).1.ok = false ∧
      (performChargeFlow env sendAlerts w).2.startAttempts = 0 := by
  unfold performChargeFlow
  rcases hempty with he | he <;> simp [hfetch, hparse, he]

/-- Witness for C5: an auth response with a user id but no token field at all. -/
theorem chargeFlow_emptyAuthFields_failFast_witness :
    (performChargeFlow exEnv true exNoTokenWorld).1.ok = false ∧
      (performChargeFlow exEnv true exNoTokenWorld).2.startAttempts = 0 :=
  chargeFlow_emptyAuthFields_failFast exEnv true exNoTokenWorld ⟨200, "auth-body"⟩
    ⟨some "42", none, none, none, none, none⟩ rfl rfl (Or.inr rfl)

/-- C3: the scheduled entry point runs the charge flow iff the civil
wall-clock hour reported for the configured timezone equals 6; at any other
hour the gate declines and nothing downstream executes (no network call, no
alert, no wait). -/
theorem scheduled_gate (env : Env) (w : World) :
    ((scheduledHandler env w).ran = true ↔ w.localHour (effectiveTz env) = 6) ∧
      (w.localHour (effectiveTz env) ≠ 6 →
        scheduledHandler env w = ⟨false, none, emptyTrace⟩) := by
  unfold scheduledHandler
  by_cases h : w.localHour (effectiveTz env) = 6 <;> simp [h]

/-- A world whose clock oracle reports hour 13 for every timezone. -/
def exOffHourWorld : World := { exGoodWorld with localHour := fun _ => 13 }

/-- Witness for C3 at hour 13: the gate declines and nothing runs. -/
theorem scheduled_gate_witness :
    scheduledHandler exEnv exOffHourWorld = ⟨false, none, emptyTrace⟩ :=
  (scheduled_gate exEnv exOffHourWorld).2 (by decide)

/-- C10: `POST /charge` with `CP_STATION_ID` unset/empty answers 400 with an
error JSON body and performs nothing: no auth call, no action call, no alert. -/
theorem chargeRoute_missingStation (env : Env) (w : World)
    (h : env.CP_STATION_ID = "") :
    fetchHandler chargeReq env w =
      (⟨400, Json.obj [("error", Json.str "CP_STATION_ID not set")]⟩, emptyTrace) := by
  unfold fetchHandler chargeReq
  simp [h]

/-- An environment with the station id left unset. -/
def exEnvNoStation : Env := { exEnv with CP_STATION_ID := "" }

/-- Witness for C10. -/
theorem chargeRoute_missingStation_witness :
    fetchHandler chargeReq exEnvNoStation exGoodWorld =
      (⟨400, Json.obj [("error", Json.str "CP_STATION_ID not set")]⟩, emptyTrace) :=
  chargeRoute_missingStation exEnvNoStation exGoodWorld rfl

/-- C8: with a station id configured, `POST /charge` runs the charge flow
(with alerts disabled) and answers with the result serialized as JSON, status
200 when `ok` and 500 otherwise; and the route is gate-free — its behavior
does not depend on the wall-clock-hour oracle at all. -/
theorem chargeRoute_unconditional (env : Env) (w : World) (hr : String → Nat)
    (hstation : env.CP_STATION_ID ≠ "") :
    fetchHandler chargeReq env w =
      (⟨if (performChargeFlow env false w).1.ok then 200 else 500,
        chargeResultJson (performChargeFlow env false w).1⟩,
       (performChargeFlow env false w).2) ∧
      fetchHandler chargeReq env { w with localHour := hr } =
        fetchHandler chargeReq env w := by
  constructor
  · unfold fetchHandler chargeReq
    simp [hstation]
  · rfl

/-- Witness for C8. -/
theorem chargeRoute_unconditional_witness :
    fetchHandler chargeReq exEnv exGoodWorld =
      (⟨if (performChargeFlow exEnv false exGoodWorld).1.ok then 200 else 500,
        chargeResultJson (performChargeFlow exEnv false exGoodWorld).1⟩,
       (performChargeFlow exEnv false exGoodWorld).2) ∧
      fetchHandler chargeReq exEnv { exGoodWorld with localHour := fun _ => 0 } =
        fetchHandler chargeReq exEnv exGoodWorld :=
  chargeRoute_unconditional exEnv exGoodWorld (fun _ => 0) (by decide)

/-- Amended C2: with alerts enabled (the scheduled path) the flow sends
exactly one alert when it fails — at the auth step or at the trigger step —
and none when it succeeds; invoked with alerts disabled (the `/charge`
route), it sends none at all.  No alert is sent from inside the retry loop. -/
theorem chargeFlow_alert_count (env : Env) (w : World) :
    (performChargeFlow env true w).2.alerts.length
        = (if (performChargeFlow env true w).1.ok then 0 else 1) ∧
      (performChargeFlow env false w).2.alerts = [] := by
  refine ⟨?_, ?_⟩ <;>
    (unfold performChargeFlow alertsIf
     dsimp only
     repeat' split
     all_goals first | rfl | simp_all)

/-- Counterexample to C2 as stated: (a) an invocation failing at the auth
step (the action endpoint is never attempted) nevertheless sends exactly one
alert, contradicting "only on failure of the terminal trigger step (not on
auth failure)"; (b) a failed invocation with alerts disabled (as on the
`/charge` route) sends zero alerts, contradicting "the Alert Notifier is
invoked exactly once" for every failed invocation. -/
theorem chargeFlow_alert_claim_cex :
    ((performChargeFlow exEnv true exNoTokenWorld).1.ok = false ∧
     (performChargeFlow exEnv true exNoTokenWorld).2.startAttempts = 0 ∧
     (performChargeFlow exEnv true exNoTokenWorld).2.alerts.length = 1) ∧
    ((performChargeFlow exEnv false exNoTokenWorld).1.ok = false ∧
     (performChargeFlow exEnv false exNoTokenWorld).2.alerts.length = 0) :=
  ⟨⟨rfl, rfl, rfl⟩, rfl, rfl⟩

/-- C7: `sendAlert` returns normally for every delivery outcome — an ok
response, a non-success status, or a thrown transport error — always having
issued the mail request to the configured recipient with the given subject
and body; and the `ChargeResult` computed by the flow is unchanged by the
alert delivery outcome. -/
theorem sendAlert_fireAndForget (env : Env) (subject body : String) (s : Bool)
    (w : World) (m m' : Outcome) :
    ((sendAlert env subject body m).recipient = env.ALERT_EMAIL ∧
     (sendAlert env subject body m).subject = subject ∧
     (sendAlert env subject body m).body = body) ∧
    (performChargeFlow env s { w with mailOutcome := m }).1
        = (performChargeFlow env s { w with mailOutcome := m' }).1 := by
  constructor
  · cases m <;> simp [sendAlert]
  · unfold performChargeFlow alertsIf
    dsimp only
    repeat' split
    all_goals rfl

/-- `sendAlert` always issues the mail request with the body it was given. -/
theorem sendAlert_body (env : Env) (subject body : String) (m : Outcome) :
    (sendAlert env subject body m).body = body := by
  cases m <;> rfl

/-- Every alert recorded by `alertsIf` carries the failure message as body. -/
theorem mem_alertsIf_body (env : Env) (s : Bool) (msg : String) (mo : Outcome)
    (a : AlertEffect) (ha : a ∈ alertsIf env s msg mo) : a.body = msg := by
  unfold alertsIf at ha
  split at ha
  · rw [List.mem_singleton] at ha
    subst ha
    exact sendAlert_body env urgentSubject msg mo
  · exact absurd ha (List.not_mem_nil a)

/-- In any failure branch of the flow, a string that is the returned error or
the body of a sent alert is the branch's message. -/
theorem flow_msg_eq {env : Env} {s : Bool} {mo : Outcome} {msg m : String}
    (h : (some msg : Option String) = some m ∨ ∃ a ∈ alertsIf env s msg mo, a.body = m) :
    m = msg := by
  rcases h with h | ⟨a, ha, hab⟩
  · exact (Option.some.inj h).symm
  · rw [← hab]
    exact mem_alertsIf_body env s msg mo a ha

/-- Provenance of a failure message of the charge flow: it is one of four
fixed templates, whose variable parts are vendor- or environment-supplied
text only — a transport-error message or JSON-parse-error message of an
attempt, a received response's status and raw body, or the parsed auth
response's fields.  The flow never splices `CP_USERNAME`, `CP_PASSWORD` or
the extracted session token into a message itself. -/
def flowMsgSource (w : World) (m : String) : Prop :=
  (∃ e, ((∃ k, k < MAX_ATTEMPTS ∧ w.authOutcome k = Outcome.err e) ∨
         (∃ r, w.authParse r = Except.error e)) ∧ m = "Auth error: " ++ e) ∨
  (∃ r a, w.authParse r = Except.ok a ∧
      m = "Auth missing user_id or session token. Got: " ++ authMissingDetail a) ∨
  (∃ k r, k < MAX_ATTEMPTS ∧ w.startOutcome k = Outcome.resp r ∧
      m = "Start session failed: " ++ toString r.status ++ "\n" ++ r.body) ∨
  (∃ k e, k < MAX_ATTEMPTS ∧ w.startOutcome k = Outcome.err e ∧
      m = "Start session error: " ++ e)

/-- Amended C6: every returned error string and every alert body of the
charge flow is one of four fixed templates whose variable parts come only
from vendor- or environment-supplied text (transport and parse error
messages, response statuses and raw bodies) and parsed auth-response fields; the flow
never inserts the credential values or the raw session token itself, so a
secret can appear in an error or alert only when such vendor-supplied text
already contains it. -/
theorem chargeFlow_msg_provenance (env : Env) (s : Bool) (w : World) (m : String)
    (h : (performChargeFlow env s w).1.error = some m ∨
         ∃ a ∈ (performChargeFlow env s w).2.alerts, a.body = m) :
    flowMsgSource w m := by
  unfold performChargeFlow at h
  try dsimp only at h
  rcases hA : (fetchWithRetry w.authOutcome).result with e | ar
  · rw [hA] at h
    try dsimp only at h
    exact Or.inl ⟨e, Or.inl (fetchWithRetry_error_source w.authOutcome e hA), flow_msg_eq h⟩
  · rw [hA] at h
    try dsimp only at h
    rcases hP : w.authParse ar with e | a
    · rw [hP] at h
      try dsimp only at h
      exact Or.inl ⟨e, Or.inr ⟨ar, hP⟩, flow_msg_eq h⟩
    · rw [hP] at h
      try dsimp only at h
      by_cases hU : extractUserId a = "" ∨ extractSessionToken a = ""
      · rw [if_pos hU] at h
        try dsimp only at h
        exact Or.inr (Or.inl ⟨ar, a, hP, flow_msg_eq h⟩)
      · rw [if_neg hU] at h
        try dsimp only at h
        rcases hS : (fetchWithRetry w.startOutcome).result with e | sr
        · rw [hS] at h
          try dsimp only at h
          obtain ⟨k, hk, hke⟩ := fetchWithRetry_error_source w.startOutcome e hS
          exact Or.inr (Or.inr (Or.inr ⟨k, e, hk, hke, flow_msg_eq h⟩))
        · rw [hS] at h
          try dsimp only at h
          cases hok : sr.isOk
          · rw [hok] at h
            try dsimp only at h
            obtain ⟨k, hk, hkr⟩ := fetchWithRetry_ok_source w.startOutcome sr hS
            exact Or.inr (Or.inr (Or.inl ⟨k, sr, hk, hkr, flow_msg_eq h⟩))
          · rw [hok] at h
            simp at h

/-- A world in which `start_session` always answers 500 with a body that
echoes the request's secrets back (here: the account password). -/
def exStartFailWorld : World :=
  { exGoodWorld with startOutcome := fun _ => Outcome.resp ⟨500, "bad credentials hunter2"⟩ }

/-- Witness for the amended C6 at a concrete start-session failure. -/
theorem chargeFlow_msg_provenance_witness :
    flowMsgSource exStartFailWorld "Start session failed: 500\nbad credentials hunter2" :=
  chargeFlow_msg_provenance exEnv true exStartFailWorld
    "Start session failed: 500\nbad credentials hunter2" (Or.inl rfl)

/-- Counterexample to C6 as stated: when the vendor's 500-response body
echoes the password (`exEnv.CP_PASSWORD = "hunter2"`), the flow's returned
error string — and the body of the alert it sends — contains the credential
value verbatim, because the code splices the raw response body into
`Start session failed: <status>\n<body>`. -/
theorem chargeFlow_secret_in_error_cex :
    (performChargeFlow exEnv true exStartFailWorld).1.error
        = some "Start session failed: 500\nbad credentials hunter2" ∧
      exEnv.CP_PASSWORD.data <:+: ("Start session failed: 500\nbad credentials hunter2").data ∧
      (∃ a ∈ (performChargeFlow exEnv true exStartFailWorld).2.alerts,
        a.body = "Start session failed: 500\nbad credentials hunter2") := by
  refine ⟨rfl, by decide, ?_⟩
  exact ⟨_, List.Mem.head _, rfl⟩

/-- C9: a discovery invocation that reaches the charger list and parses it to
zero stations answers 404 — the distinct "No home chargers found" failure —
never a 200 with an empty list. -/
theorem setupRoute_zeroChargers (env : Env) (w : World) (ar : Response)
    (a : AuthResponse) (cr : Response) (cj : ChargerListResponse)
    (hA : (fetchWithRetry w.authOutcome).result = Except.ok ar)
    (hAok : ar.isOk = true)
    (hP : w.authParse ar = Except.ok a)
    (htok : extractSessionToken a ≠ "")
    (herr : jsTruthyStr a.error = false)
    (huid : extractUserId a ≠ "")
    (hC : (fetchWithRetry w.chargerOutcome).result = Except.ok cr)
    (hCP : w.chargerParse cr = Except.ok cj)
    (hzero : cj.data.getD [] = []) :
    (fetchHandler setupReq env w).1.status = 404 ∧
      (fetchHandler setupReq env w).1.body
        = Json.obj [("error", Json.str "No home chargers found"),
                    ("response", chargerListJson cj)] := by
  unfold fetchHandler setupReq setupRoute
  simp [hA, hAok, hP, htok, herr, huid, hC, hCP, hzero]

/-- Witness for C9: a world whose charger-list JSON parses to `{data: []}`. -/
theorem setupRoute_zeroChargers_witness :
    (fetchHandler setupReq exEnv exEmptyChargersWorld).1.status = 404 ∧
      (fetchHandler setupReq exEnv exEmptyChargersWorld).1.body
        = Json.obj [("error", Json.str "No home chargers found"),
                    ("response", chargerListJson ⟨some []⟩)] :=
  setupRoute_zeroChargers exEnv exEmptyChargersWorld ⟨200, "auth-body"⟩ exGoodAuth
    ⟨200, "chargers"⟩ ⟨some []⟩ rfl rfl rfl (by decide) rfl (by decide) rfl rfl rfl

end CPH50
